import Mathlib

/-!
Verification development for the panorama image downloader
(`pano/download_images.py` and `pano/download_images_r2.py`).

The Python code is shallowly embedded: pure helpers become Lean functions,
Python numbers are modelled as exact rationals (with Python's `round`
modelled as round-half-to-even), Python strings become `String`, absent
dictionary keys become `Option`, a raised exception in a fallible helper
becomes `none` / `Except.error`, and the effectful two-tier download is a
function over an explicit environment of external outcomes (HTTP responses,
browser events) together with the browser-queue state it threads through.
-/

/-- Rounding step of `round_number`: Python's `round(x, 2)` rounds half to
even, so this computes the banker's rounding of `100 * q` to an integer,
written with integer arithmetic on numerator and denominator (`f` is the
floor of `100 * q` and `r2 / (2 * d)` its fractional part). -/
def roundHalfEven100 (q : ℚ) : ℤ :=
  let a : ℤ := 100 * q.num
  let d : ℤ := (q.den : ℤ)
  let f : ℤ := Int.fdiv a d
  let r2 : ℤ := 2 * (a - f * d)
  if r2 < d then f
  else if d < r2 then f + 1
  else if f % 2 = 0 then f else f + 1

/-- Rendering of the rounded value scaled by 100, following Python's `str` on
the result of `round(x, 2)`: an integer string when divisible by 100,
otherwise the decimal with trailing zeros stripped. -/
def formatScaled (n : ℤ) : String :=
  if n % 100 = 0 then toString (n / 100)
  else
    let sign := if n < 0 then "-" else ""
    let m := n.natAbs
    let ip := m / 100
    let fp := m % 100
    if fp % 10 = 0 then sign ++ toString ip ++ "." ++ toString (fp / 10)
    else if fp < 10 then sign ++ toString ip ++ ".0" ++ toString fp
    else sign ++ toString ip ++ "." ++ toString fp

/-- Embedding of `round_number(num)` (the script only ever calls it with the
default `decimals=2`): round to 2 decimals half-to-even, then render as
Python's `str` does, emitting an integer string when the value is whole. -/
def round_number (num : ℚ) : String :=
  formatScaled (roundHalfEven100 num)

/-- Embedding of Python's `int()` truncation toward zero, applied to the
`zoom` field. -/
def pyTrunc (q : ℚ) : ℤ :=
  Int.tdiv q.num (q.den : ℤ)

/-- Nested `extra` object of a tile record. -/
structure Extra where
  panoId : Option String
  panoDate : Option String

/-- One tile record from a puzzle JSON file.  `none` models an absent (or
JSON-`null`) key. -/
structure Tile where
  panoId : Option String
  heading : Option ℚ
  pitch : Option ℚ
  zoom : Option ℚ
  extra : Option Extra

/-- Python truthiness of an optional string: `None` and `""` are falsy. -/
def truthy : Option String → Option String
  | some s => if s = "" then none else some s
  | none => none

/-- Identifier lookup `tile.get('panoId') or tile.get('extra', {}).get('panoId')`
followed by the `if not pano_id` falsiness check, as in `create_new_filename`
and `download_pano_image_direct`. -/
def panoLookup (t : Tile) : Option String :=
  match truthy t.panoId with
  | some s => some s
  | none => truthy (t.extra.bind Extra.panoId)

/-- Truthy `extra["panoId"]` as read by the explicit conditional chain. -/
def extraPanoTruthy (t : Tile) : Option String :=
  match t.extra with
  | some e =>
    match e.panoId with
    | some s => if s = "" then none else some s
    | none => none
  | none => none

/-- Identifier lookup written as the explicit conditional chain used in
`download_pano_image` and `process_json_file_async` (`"panoId" in tile and
tile["panoId"] is not None and tile["panoId"]`, else the same on `extra`). -/
def panoLookupExplicit (t : Tile) : Option String :=
  match t.panoId with
  | some s => if s = "" then extraPanoTruthy t else some s
  | none => extraPanoTruthy t

/-- Date lookup `tile.get('extra', {}).get('panoDate', '2024-01')` followed by
the `if not date` fallback to `'2024-01'`. -/
def dateLookup (t : Tile) : String :=
  match t.extra.bind Extra.panoDate with
  | some d => if d = "" then "2024-01" else d
  | none => "2024-01"

/-- Embedding of `create_new_filename(tile)`: `none` models the raised
`ValueError("No panoId found in tile data")`. -/
def create_new_filename (t : Tile) : Option String :=
  match panoLookup t with
  | none => none
  | some p =>
    some (p ++ "~d" ++ dateLookup t ++ "~h" ++ round_number (t.heading.getD 0)
      ++ "~p" ++ round_number (t.pitch.getD 0)
      ++ "~z" ++ toString (pyTrunc (t.zoom.getD 0)) ++ ".jpg")

/-- Character list of the pattern `".jpg"`. -/
def jpgChars : List Char := ['.', 'j', 'p', 'g']

/-- Character list of the replacement `"~thumb.jpg"`. -/
def thumbSuffixChars : List Char := ['~', 't', 'h', 'u', 'm', 'b', '.', 'j', 'p', 'g']

/-- Embedding of Python's `base.replace('.jpg', rep)`: replace every
non-overlapping occurrence of `".jpg"`, scanning left to right. -/
def replaceJpg (rep : List Char) : List Char → List Char
  | [] => []
  | '.' :: 'j' :: 'p' :: 'g' :: rest => rep ++ replaceJpg rep rest
  | c :: cs => c :: replaceJpg rep cs

/-- Derived thumbnail name `base_filename.replace('.jpg', '~thumb.jpg')` as
computed at every use site of the codec. -/
def thumbName (s : String) : String :=
  String.mk (replaceJpg thumbSuffixChars s.data)

/-- Does the second list start with the first one? -/
def leadsWith : List Char → List Char → Bool
  | [], _ => true
  | _ :: _, [] => false
  | p :: ps, c :: cs => p == c && leadsWith ps cs

/-- Python's substring test `pat in s` on character lists. -/
def occursIn (pat : List Char) : List Char → Bool
  | [] => leadsWith pat []
  | c :: cs => leadsWith pat (c :: cs) || occursIn pat cs

/-- Planning loop of `process_json_file_async` (local-disk variant): walk the
tiles, skip those without an identifier or whose codec call fails, and sort
the rest into `needed_tiles` (download full + thumb) and `thumb_only_tiles`
(regenerate the thumbnail from the existing full image), given the
`(output_dir / name).exists()` predicate `ex`. -/
def planTiles (ex : String → Bool) : List Tile → List Tile × List Tile
  | [] => ([], [])
  | t :: rest =>
    match panoLookupExplicit t with
    | none => planTiles ex rest
    | some _ =>
      match create_new_filename t with
      | none => planTiles ex rest
      | some f =>
        let prev := planTiles ex rest
        let fe := ex f
        let te := ex (thumbName f)
        if fe = false ∧ te = false then (t :: prev.1, prev.2)
        else if fe = false ∧ te = true then (t :: prev.1, prev.2)
        else if fe = true ∧ te = false then (prev.1, t :: prev.2)
        else prev

/-- Spec-side predicate, for comparison with `planTiles`: a tile needs a
download exactly when its full image name is produced and the full image is
missing from storage. -/
def specNeedsDownload (ex : String → Bool) (t : Tile) : Bool :=
  match create_new_filename t with
  | some f => !ex f
  | none => false

/-- Spec-side predicate, for comparison with `planTiles`: only the thumbnail
is regenerated exactly when the full image exists and the thumbnail does
not. -/
def specThumbOnly (ex : String → Bool) (t : Tile) : Bool :=
  match create_new_filename t with
  | some f => ex f && !ex (thumbName f)
  | none => false

/-- Expected-file set built by `dry_run` and `prune_orphaned_images`: for each
tile with an identifier, the full name and the thumbnail name. -/
def expectedFiles : List Tile → Finset String
  | [] => ∅
  | t :: rest =>
    match panoLookup t with
    | none => expectedFiles rest
    | some _ =>
      match create_new_filename t with
      | none => expectedFiles rest
      | some f => insert f (insert (thumbName f) (expectedFiles rest))

/-- Reconciliation of `dry_run`: `missing_files = expected_files - actual_files`. -/
def missing_files (expected actual : Finset String) : Finset String :=
  expected \ actual

/-- Reconciliation of `dry_run`: `orphaned_files = actual_files - expected_files`. -/
def orphaned_files (expected actual : Finset String) : Finset String :=
  actual \ expected

/-- Orphan scan of `prune_orphaned_images`: collect the actual filenames that
are not in the expected set, in order. -/
def pruneOrphans (expected : Finset String) : List String → List String
  | [] => []
  | f :: rest =>
    if f ∈ expected then pruneOrphans expected rest
    else f :: pruneOrphans expected rest

/-- State of the `BrowserPool`'s `asyncio.Queue` together with ghost
bookkeeping: `available` is the queue contents (browsers by index),
`waiters` the suspended `get` callers in FIFO order, and `granted` the
browsers currently handed out, tagged by caller. -/
structure PoolSt where
  available : List ℕ
  waiters : List ℕ
  granted : List (ℕ × ℕ)
deriving DecidableEq

/-- One interaction with the pool: `acquire c` is caller `c` awaiting
`get_browser()`, `release c b` is caller `c` running `return_browser(b)`. -/
inductive PoolAct where
  | acquire (caller : ℕ)
  | release (caller : ℕ) (b : ℕ)

/-- Semantics of `asyncio.Queue` as used by `get_browser`/`return_browser`:
`get` takes the head of the queue or suspends the caller; `put` hands the
browser to the first waiter if any, else appends it to the queue.  A release
of a browser not currently granted to that caller does not occur in the
scripts and is a no-op here. -/
def poolStep (s : PoolSt) : PoolAct → PoolSt
  | .acquire c =>
    match s.available with
    | b :: rest => { s with available := rest, granted := (c, b) :: s.granted }
    | [] => { s with waiters := s.waiters ++ [c] }
  | .release c b =>
    if (c, b) ∈ s.granted then
      match s.waiters with
      | w :: ws => { s with waiters := ws, granted := (w, b) :: (s.granted.erase (c, b)) }
      | [] => { s with available := s.available ++ [b], granted := s.granted.erase (c, b) }
    else s

/-- Run a sequence of pool interactions. -/
def runPool (s : PoolSt) (acts : List PoolAct) : PoolSt :=
  List.foldl poolStep s acts

/-- Pool state after `BrowserPool(n).initialize()`: `n` launched browsers all
queued as available, nobody waiting, nothing handed out. -/
def initPool (n : ℕ) : PoolSt :=
  { available := List.range n, waiters := [], granted := [] }

/-- Outcome of one `requests.get(url, timeout=10)` call: either the request
raises (timeout, connection error, ...) or it yields a status code, a
`content-type` header and a body (`contentNonempty` is the Python truthiness
of `response.content`). -/
structure FetchResult where
  raises : Bool
  status : ℕ
  contentType : String
  contentNonempty : Bool

/-- Character list of the substring `"image"` tested by
`'image' in content_type`. -/
def imageChars : List Char := ['i', 'm', 'a', 'g', 'e']

/-- Loop body of `try_direct_download`: walk the candidate URLs; a raised
request or a non-200/non-image response falls through to the next URL; the
first image response is returned.  The second component counts the HTTP
requests issued. -/
def tryDirectLoop (fetch : String → FetchResult) : List String → Option FetchResult × ℕ
  | [] => (none, 0)
  | u :: rest =>
    let r := fetch u
    if r.raises then
      let p := tryDirectLoop fetch rest
      (p.1, p.2 + 1)
    else if r.status = 200 && occursIn imageChars r.contentType.data then
      (some r, 1)
    else
      let p := tryDirectLoop fetch rest
      (p.1, p.2 + 1)

/-- The single candidate URL pattern of `try_direct_download`. -/
def directUrl (pano date h p z : String) : String :=
  "https://geonections.com/pano/img/" ++ pano ++ "~d" ++ date ++ "~h" ++ h
    ++ "~p" ++ p ++ "~z" ++ z ++ ".jpg"

/-- The `test_urls` list of `try_direct_download`: exactly one URL. -/
def testUrls (pano date h p z : String) : List String :=
  [directUrl pano date h p z]

/-- Embedding of `try_direct_download(pano_id, heading, pitch, zoom, date)`. -/
def try_direct_download (fetch : String → FetchResult)
    (pano date h p z : String) : Option FetchResult × ℕ :=
  tryDirectLoop fetch (testUrls pano date h p z)

/-- Embedding of `download_pano_image_direct(tile, output_dir)`: `none` for
every failure (missing identifier, failed fetch, empty body, exception while
saving the image or building its thumbnail), the two written filenames on
success.  `saveOk` is the outcome of the file-saving block. -/
def download_pano_image_direct (t : Tile) (fetch : String → FetchResult)
    (saveOk : Bool) : Option (List String) :=
  match panoLookup t with
  | none => none
  | some p =>
    let h := round_number (t.heading.getD 0)
    let pi := round_number (t.pitch.getD 0)
    let z := toString (pyTrunc (t.zoom.getD 0))
    let date := dateLookup t
    match (try_direct_download fetch p date h pi z).1 with
    | some r =>
      if r.contentNonempty then
        match create_new_filename t with
        | some f => if saveOk then some [f, thumbName f] else none
        | none => none
      else none
    | none => none

/-- Outcomes of the browser-automation calls made by the fallback tier of
`download_pano_image`: whether `browser.new_page()` succeeds, whether
`page.goto` succeeds, whether `wait_for_selector("#pano")` succeeds, whether
the `window.panoLoaded` flag is seen in time (a warning only), whether the
`#pano` element is found, and whether the screenshot/thumbnail writes
succeed. -/
structure BrowserEnv where
  newPageOk : Bool
  navOk : Bool
  selectorOk : Bool
  loadedOk : Bool
  panoElemFound : Bool
  saveOk : Bool

/-- The two acquisition tiers. -/
inductive Tier where
  | direct
  | browser
deriving DecidableEq

/-- Result of one `download_pano_image` call: `outcome` is `Except.error ()`
when an exception escapes the function (it never does through the `except`
clause, only through the cleanup in `finally`), otherwise the returned value
(`none` = tile failed, `some` = the written filenames); `trace` lists the
tiers attempted in order. -/
structure DownloadResult where
  outcome : Except Unit (Option (List String))
  trace : List Tier

/-- Embedding of `download_pano_image` (local-disk variant): direct tier
first unless `skipDirect`, then the browser fallback.  The available-browser
queue `avail` is threaded through: the fallback takes the head browser and
the `finally` block appends it back — except when `browser.new_page()`
raises, in which case the caught exception reaches `finally` with the local
`page` never bound, `await page.close()` raises `UnboundLocalError`, the
browser is not returned, and the new exception propagates to the caller.
The empty-queue case would suspend the caller; the sequential driver never
reaches it, and it is modelled as an unreached stub. -/
def download_pano_image (skipDirect : Bool) (t : Tile)
    (fetch : String → FetchResult) (dSaveOk : Bool) (benv : BrowserEnv)
    (avail : List ℕ) : DownloadResult × List ℕ :=
  let directTrace : List Tier := if skipDirect then [] else [Tier.direct]
  let directRes : Option (List String) :=
    if skipDirect then none else download_pano_image_direct t fetch dSaveOk
  match directRes with
  | some fns => ({ outcome := .ok (some fns), trace := directTrace }, avail)
  | none =>
    match avail with
    | [] => ({ outcome := .ok none, trace := directTrace }, avail)
    | b :: rest =>
      let finTrace := directTrace ++ [Tier.browser]
      if benv.newPageOk = false then
        ({ outcome := .error (), trace := finTrace }, rest)
      else
        let done : Option (List String) → DownloadResult × List ℕ := fun o =>
          ({ outcome := .ok o, trace := finTrace }, rest ++ [b])
        match panoLookupExplicit t with
        | none => done none
        | some _ =>
          if benv.navOk = false then done none
          else if benv.selectorOk = false then done none
          else
            match create_new_filename t with
            | none => done none
            | some f =>
              if benv.panoElemFound then
                if benv.saveOk then done (some [f, thumbName f]) else done none
              else done none

/-- Download loop of `process_json_file_async` over the needed tiles: each
tile's per-tile outcome `f t` (`none` = tile failed, errors caught and
logged) never stops the loop; the second component counts the tiles
processed. -/
def runTiles (f : Tile → Option (List String)) : List Tile → List String × ℕ
  | [] => ([], 0)
  | t :: rest =>
    let r := runTiles f rest
    match f t with
    | some fns => (fns ++ r.1, r.2 + 1)
    | none => (r.1, r.2 + 1)

/-- File loop of `main_async`: each puzzle file yields either a result list
or a caught exception; an erroring file is logged and skipped, the rest keep
contributing. -/
def runFiles : List (Except String (List String)) → List String
  | [] => []
  | .ok fns :: rest => fns ++ runFiles rest
  | .error _ :: rest => runFiles rest

/-- Sample tile of the spec's encoding scenario. -/
def tileABC : Tile :=
  { panoId := some "ABC123", heading := some 90, pitch := some 0,
    zoom := some 1, extra := some { panoId := none, panoDate := some "2023-05" } }

/-- Sample tile with the identifier only in `extra` and most fields absent. -/
def tileXYZ : Tile :=
  { panoId := none, heading := some (mkRat 123456 10000), pitch := none,
    zoom := none, extra := some { panoId := some "XYZ", panoDate := none } }

/-- Sample tile whose identifier contains the substring `".jpg"`. -/
def tileJpgId : Tile :=
  { panoId := some "x.jpg", heading := none, pitch := none, zoom := none,
    extra := none }

/-- Sample tile with no identifier in either location. -/
def tileNoId : Tile :=
  { panoId := none, heading := some 1, pitch := none, zoom := some 2,
    extra := some { panoId := none, panoDate := some "2022-03" } }

/-- Value returned by the browser tier once a page exists: `none` on every
caught failure (missing identifier, navigation failure, selector timeout,
codec failure, missing `#pano` element, failed screenshot or thumbnail
write), the two filenames on success.  Spelled out for stating theorems
about `download_pano_image`. -/
def browserReturn (t : Tile) (benv : BrowserEnv) : Option (List String) :=
  match panoLookupExplicit t with
  | none => none
  | some _ =>
    if benv.navOk = false then none
    else if benv.selectorOk = false then none
    else
      match create_new_filename t with
      | none => none
      | some f =>
        if benv.panoElemFound then
          if benv.saveOk then some [f, thumbName f] else none
        else none

/-- Spec-side predicate: some step of the browser tier fails for this tile
under these outcomes. -/
def browserFails (t : Tile) (benv : BrowserEnv) : Bool :=
  !benv.newPageOk || (panoLookupExplicit t).isNone || !benv.navOk
    || !benv.selectorOk || (create_new_filename t).isNone
    || !benv.panoElemFound || !benv.saveOk

/-- Fetch oracle where every request raises (e.g. a network timeout). -/
def fetchFail : String → FetchResult :=
  fun _ => { raises := true, status := 0, contentType := "", contentNonempty := false }

/-- Browser outcomes where `browser.new_page()` itself raises. -/
def benvNoPage : BrowserEnv :=
  { newPageOk := false, navOk := true, selectorOk := true, loadedOk := true,
    panoElemFound := true, saveOk := true }

/-- Browser outcomes where only `page.goto` fails. -/
def benvNavFail : BrowserEnv :=
  { newPageOk := true, navOk := false, selectorOk := true, loadedOk := true,
    panoElemFound := true, saveOk := true }

/-- Browser outcomes where only `wait_for_selector("#pano")` times out. -/
def benvSelFail : BrowserEnv :=
  { newPageOk := true, navOk := true, selectorOk := false, loadedOk := true,
    panoElemFound := true, saveOk := true }

theorem panoLookupExplicit_eq (t : Tile) : panoLookupExplicit t = panoLookup t := by
  rcases t with ⟨pid, hh, pp, zz, ex⟩
  rcases pid with _ | s
  · rcases ex with _ | ⟨epid, edate⟩
    · rfl
    · rcases epid with _ | es
      · rfl
      · rfl
  · by_cases hs : s = ""
    · subst hs
      rcases ex with _ | ⟨epid, edate⟩
      · simp [panoLookupExplicit, panoLookup, extraPanoTruthy, truthy]
      · rcases epid with _ | es
        · simp [panoLookupExplicit, panoLookup, extraPanoTruthy, truthy]
        · simp [panoLookupExplicit, panoLookup, extraPanoTruthy, truthy]
    · simp [panoLookupExplicit, panoLookup, truthy, hs]

theorem create_new_filename_of_pano {t : Tile} {p : String}
    (h : panoLookup t = some p) :
    create_new_filename t
      = some (p ++ "~d" ++ dateLookup t ++ "~h" ++ round_number (t.heading.getD 0)
          ++ "~p" ++ round_number (t.pitch.getD 0)
          ++ "~z" ++ toString (pyTrunc (t.zoom.getD 0)) ++ ".jpg") := by
  unfold create_new_filename
  rw [h]

theorem create_new_filename_eq_none {t : Tile} (h : panoLookup t = none) :
    create_new_filename t = none := by
  unfold create_new_filename
  rw [h]

/-- C1: for every tile with a panorama identifier, the codec returns the
concatenation `{panoId}~d{date}~h{heading}~p{pitch}~z{zoom}.jpg` with the
2-decimal-rounded heading and pitch, the truncated integer zoom and the
`extra.panoDate` date falling back to `2024-01`; in particular the spec's
sample tile encodes to `ABC123~d2023-05~h90~p0~z1.jpg`. -/
theorem filename_codec_format :
    (∀ (t : Tile) (p : String), panoLookup t = some p →
      create_new_filename t
        = some (p ++ "~d" ++ dateLookup t ++ "~h" ++ round_number (t.heading.getD 0)
            ++ "~p" ++ round_number (t.pitch.getD 0)
            ++ "~z" ++ toString (pyTrunc (t.zoom.getD 0)) ++ ".jpg"))
    ∧ create_new_filename tileABC = some "ABC123~d2023-05~h90~p0~z1.jpg" :=
  ⟨fun _ _ h => create_new_filename_of_pano h, by decide⟩

/-- Witness for `filename_codec_format` at a concrete tile whose identifier
sits in `extra` and whose other fields are absent. -/
theorem filename_codec_format_witness :
    create_new_filename tileXYZ
      = some ("XYZ" ++ "~d" ++ dateLookup tileXYZ ++ "~h"
          ++ round_number (tileXYZ.heading.getD 0)
          ++ "~p" ++ round_number (tileXYZ.pitch.getD 0)
          ++ "~z" ++ toString (pyTrunc (tileXYZ.zoom.getD 0)) ++ ".jpg") :=
  filename_codec_format.1 tileXYZ "XYZ" (by decide)

/-- C4: a tile with no identifier at `panoId` nor at `extra.panoId` makes the
codec fail (the raised `ValueError` is modelled by `none`), and the planning
loop skips such a tile and continues with the remaining ones. -/
theorem missing_identifier_skips_tile :
    ∀ t : Tile, panoLookup t = none →
      create_new_filename t = none
      ∧ ∀ (ex : String → Bool) (rest : List Tile),
          planTiles ex (t :: rest) = planTiles ex rest := by
  intro t h
  refine ⟨create_new_filename_eq_none h, ?_⟩
  intro ex rest
  conv_lhs => rw [planTiles]
  rw [panoLookupExplicit_eq, h]

/-- Witness for `missing_identifier_skips_tile` at a concrete identifier-free
tile. -/
theorem missing_identifier_skips_tile_witness :
    create_new_filename tileNoId = none
    ∧ planTiles (fun _ => false) (tileNoId :: [tileABC])
        = planTiles (fun _ => false) [tileABC] := by
  have h := missing_identifier_skips_tile tileNoId (by decide)
  exact ⟨h.1, h.2 _ _⟩

/-- C6: `round_number 1 = "1"`, `round_number 1.005 = "1"` (Python's
banker's rounding sends 100.5 to the even 100), `round_number 12.3456 =
"12.35"`, and whenever the 2-decimal rounding is a whole number the output
is its integer string. -/
theorem round_number_spec :
    round_number 1 = "1"
    ∧ (round_number (mkRat 1005 1000) = "1" ∨ round_number (mkRat 1005 1000) = "1.0")
    ∧ round_number (mkRat 123456 10000) = "12.35"
    ∧ (∀ q : ℚ, roundHalfEven100 q % 100 = 0 →
        round_number q = toString (roundHalfEven100 q / 100)) := by
  refine ⟨by decide, Or.inl (by decide), by decide, ?_⟩
  intro q h
  unfold round_number formatScaled
  rw [if_pos h]

/-- Witness for the whole-number clause of `round_number_spec`. -/
theorem round_number_spec_witness :
    round_number 3 = toString (roundHalfEven100 3 / 100) :=
  round_number_spec.2.2.2 3 (by decide)

/-- C5: reconciliation computes `missing = expected − actual` and
`orphaned = actual − expected`; the two sets are disjoint, `missing` avoids
`actual`, `orphaned` avoids `expected`, and the prune scan returns exactly
stored names outside the expected set. -/
theorem reconciliation_partition :
    ∀ (tiles : List Tile) (actual : Finset String),
      missing_files (expectedFiles tiles) actual ∩ orphaned_files (expectedFiles tiles) actual = ∅
      ∧ missing_files (expectedFiles tiles) actual ∩ actual = ∅
      ∧ orphaned_files (expectedFiles tiles) actual ∩ expectedFiles tiles = ∅
      ∧ ∀ (stored : List String) (f : String),
          f ∈ pruneOrphans (expectedFiles tiles) stored →
            f ∈ stored ∧ f ∉ expectedFiles tiles := by
  intro tiles actual
  refine ⟨?_, ?_, ?_, ?_⟩
  · ext x; simp [missing_files, orphaned_files]; tauto
  · ext x; simp [missing_files]
  · ext x; simp [orphaned_files]
  · intro stored
    induction stored with
    | nil => intro f hf; simp [pruneOrphans] at hf
    | cons g rest ih =>
      intro f hf
      by_cases hg : g ∈ expectedFiles tiles
      · rw [pruneOrphans, if_pos hg] at hf
        rcases ih f hf with ⟨h1, h2⟩
        exact ⟨List.mem_cons_of_mem g h1, h2⟩
      · rw [pruneOrphans, if_neg hg] at hf
        rw [List.mem_cons] at hf
        rcases hf with hfg | hf
        · exact ⟨by rw [hfg]; exact List.mem_cons_self g rest, by rw [hfg]; exact hg⟩
        · rcases ih f hf with ⟨h1, h2⟩
          exact ⟨List.mem_cons_of_mem g h1, h2⟩

/-- Witness for the prune clause of `reconciliation_partition`. -/
theorem reconciliation_partition_witness :
    "a.jpg" ∈ ["a.jpg"] ∧ "a.jpg" ∉ expectedFiles [] :=
  (reconciliation_partition [] ∅).2.2.2 ["a.jpg"] "a.jpg" (by decide)

theorem replaceJpg_not_head (rep : List Char) (c : Char) (cs : List Char)
    (h : leadsWith jpgChars (c :: cs) = false) :
    replaceJpg rep (c :: cs) = c :: replaceJpg rep cs := by
  rw [replaceJpg.eq_def]
  split
  · next heq => exact absurd heq (by simp)
  · next rest heq =>
    exfalso
    rw [heq] at h
    simp [leadsWith, jpgChars] at h
  · next c' cs' hno heq =>
    injection heq with h1 h2
    subst h1
    subst h2
    rfl

theorem replaceJpg_append (rep : List Char) :
    ∀ s : List Char, occursIn jpgChars s = false →
      replaceJpg rep (s ++ jpgChars) = s ++ rep := by
  intro s
  induction s with
  | nil =>
    intro _
    simp [jpgChars, replaceJpg]
  | cons c cs ih =>
    intro h
    unfold occursIn at h
    have h1 : leadsWith jpgChars (c :: cs) = false := (Bool.or_eq_false_iff.mp h).1
    have h2 : occursIn jpgChars cs = false := (Bool.or_eq_false_iff.mp h).2
    by_cases hl : leadsWith jpgChars (c :: (cs ++ jpgChars)) = true
    · exfalso
      rcases cs with _ | ⟨c1, cs1⟩
      · simp [leadsWith, jpgChars] at hl
      rcases cs1 with _ | ⟨c2, cs2⟩
      · simp [leadsWith, jpgChars] at hl
      rcases cs2 with _ | ⟨c3, cs3⟩
      · simp [leadsWith, jpgChars] at hl
      · simp [leadsWith, jpgChars] at hl h1
        exact h1 hl.1 hl.2.1 hl.2.2.1 hl.2.2.2
    · have hl' : leadsWith jpgChars (c :: (cs ++ jpgChars)) = false :=
        Bool.eq_false_iff.mpr hl
      have step := replaceJpg_not_head rep c (cs ++ jpgChars) hl'
      calc replaceJpg rep ((c :: cs) ++ jpgChars)
          = c :: replaceJpg rep (cs ++ jpgChars) := step
        _ = c :: (cs ++ rep) := by rw [ih h2]
        _ = (c :: cs) ++ rep := rfl

/-- C2 counterexample: for the tile whose identifier is `"x.jpg"`, the
thumbnail name is not the full name with `~thumb` inserted before the final
`.jpg` — `replace` also rewrites the occurrence inside the identifier. -/
theorem thumb_name_counterexample :
    create_new_filename tileJpgId = some "x.jpg~d2024-01~h0~p0~z0.jpg"
    ∧ thumbName "x.jpg~d2024-01~h0~p0~z0.jpg"
        = "x~thumb.jpg~d2024-01~h0~p0~z0~thumb.jpg"
    ∧ thumbName "x.jpg~d2024-01~h0~p0~z0.jpg"
        ≠ "x.jpg~d2024-01~h0~p0~z0~thumb.jpg" := by
  refine ⟨by decide, by decide, by decide⟩

/-- C2 (amended): the thumbnail name is the full name with every occurrence
of `".jpg"` replaced by `"~thumb.jpg"`; whenever the part before the final
`.jpg` contains no `".jpg"` (in particular for every identifier and date
avoiding that substring) this equals inserting `~thumb` before the
extension. -/
theorem thumb_name_insertion :
    ∀ (t : Tile) (stem : String),
      create_new_filename t = some (stem ++ ".jpg") →
      occursIn jpgChars stem.data = false →
      thumbName (stem ++ ".jpg") = stem ++ "~thumb.jpg"
      ∧ Option.map thumbName (create_new_filename t)
          = some (stem ++ "~thumb.jpg") := by
  intro t stem hc ho
  have hd : (stem ++ ".jpg").data = stem.data ++ jpgChars := rfl
  have key : thumbName (stem ++ ".jpg") = stem ++ "~thumb.jpg" := by
    unfold thumbName
    rw [hd, replaceJpg_append _ _ ho]
    rfl
  exact ⟨key, by rw [hc, Option.map_some', key]⟩

/-- Witness for `thumb_name_insertion` at the spec's sample tile. -/
theorem thumb_name_insertion_witness :
    thumbName ("ABC123~d2023-05~h90~p0~z1" ++ ".jpg")
        = "ABC123~d2023-05~h90~p0~z1" ++ "~thumb.jpg"
    ∧ Option.map thumbName (create_new_filename tileABC)
        = some ("ABC123~d2023-05~h90~p0~z1" ++ "~thumb.jpg") :=
  thumb_name_insertion tileABC "ABC123~d2023-05~h90~p0~z1" (by decide) (by decide)

/-- C9: the planning loop is exactly filename-based deduplication — a tile
goes to the download list precisely when its full image is missing (whether
or not the thumbnail exists), to the thumbnail-regeneration list precisely
when the full image exists and the thumbnail does not, and is skipped when
both exist (or when the codec yields no name). -/
theorem dedup_classification :
    ∀ (ex : String → Bool) (tiles : List Tile),
      planTiles ex tiles
        = (tiles.filter (specNeedsDownload ex), tiles.filter (specThumbOnly ex)) := by
  intro ex tiles
  induction tiles with
  | nil => rfl
  | cons t rest ih =>
    rw [planTiles]
    cases hp : panoLookupExplicit t with
    | none =>
      have hpl : panoLookup t = none := by rw [← panoLookupExplicit_eq, hp]
      have hcf : create_new_filename t = none := create_new_filename_eq_none hpl
      simp [List.filter_cons, specNeedsDownload, specThumbOnly, hcf, ih]
    | some p =>
      have hpl : panoLookup t = some p := by rw [← panoLookupExplicit_eq, hp]
      obtain ⟨f, hcf⟩ : ∃ f, create_new_filename t = some f :=
        ⟨_, create_new_filename_of_pano hpl⟩
      rw [hcf]
      cases hfe : ex f <;> cases hte : ex (thumbName f) <;>
        simp [List.filter_cons, specNeedsDownload, specThumbOnly, hcf, hfe, hte, ih]

theorem poolStep_sum (n : ℕ) (s : PoolSt) (a : PoolAct)
    (h : s.available.length + s.granted.length = n) :
    (poolStep s a).available.length + (poolStep s a).granted.length = n := by
  cases a with
  | acquire c =>
    cases hav : s.available with
    | nil => simp [poolStep, hav] at h ⊢; omega
    | cons b rest => simp [poolStep, hav] at h ⊢; omega
  | release c b =>
    by_cases hm : (c, b) ∈ s.granted
    · have hpos : 0 < s.granted.length := List.length_pos_of_mem hm
      have herase : (s.granted.erase (c, b)).length = s.granted.length - 1 :=
        List.length_erase_of_mem hm
      cases hw : s.waiters with
      | cons w ws => simp [poolStep, hm, hw, herase]; omega
      | nil => simp [poolStep, hm, hw, herase]; omega
    · simp [poolStep, hm]; exact h

theorem runPool_sum (n : ℕ) (acts : List PoolAct) (s : PoolSt)
    (h : s.available.length + s.granted.length = n) :
    (runPool s acts).available.length + (runPool s acts).granted.length = n := by
  induction acts generalizing s with
  | nil => simpa [runPool] using h
  | cons a rest ih =>
    simp only [runPool, List.foldl_cons]
    exact ih (poolStep s a) (poolStep_sum n s a h)

/-- C7: the pool never hands out more browsers than it holds, and in the
spec's scenario — pool of size 2 with three acquirers — the third caller is
suspended with nothing granted, and is resumed with the released browser
once caller 1 returns it. -/
theorem browser_pool_discipline :
    (∀ (n : ℕ) (acts : List PoolAct),
      (runPool (initPool n) acts).granted.length ≤ n)
    ∧ (runPool (initPool 2) [.acquire 1, .acquire 2, .acquire 3]).granted.length = 2
    ∧ (runPool (initPool 2) [.acquire 1, .acquire 2, .acquire 3]).waiters = [3]
    ∧ ((runPool (initPool 2) [.acquire 1, .acquire 2, .acquire 3]).granted.map
        Prod.fst).contains 3 = false
    ∧ (3, 0) ∈ (runPool (initPool 2)
        [.acquire 1, .acquire 2, .acquire 3, .release 1 0]).granted
    ∧ (runPool (initPool 2)
        [.acquire 1, .acquire 2, .acquire 3, .release 1 0]).waiters = [] := by
  refine ⟨?_, by decide, by decide, by decide, by decide, by decide⟩
  intro n acts
  have h := runPool_sum n acts (initPool n) (by simp [initPool])
  omega

theorem download_direct_eval (t : Tile) (fetch : String → FetchResult)
    (dok : Bool) (benv : BrowserEnv) (avail : List ℕ) (fns : List String)
    (hd : download_pano_image_direct t fetch dok = some fns) :
    download_pano_image false t fetch dok benv avail
      = ({ outcome := .ok (some fns), trace := [Tier.direct] }, avail) := by
  simp [download_pano_image, hd]

theorem download_browser_eval (sd : Bool) (t : Tile) (fetch : String → FetchResult)
    (dok : Bool) (benv : BrowserEnv) (b : ℕ) (rest : List ℕ)
    (hd : (if sd then none else download_pano_image_direct t fetch dok)
        = (none : Option (List String))) :
    download_pano_image sd t fetch dok benv (b :: rest)
      = if benv.newPageOk = false then
          ({ outcome := .error (),
             trace := (if sd then [] else [Tier.direct]) ++ [Tier.browser] }, rest)
        else
          ({ outcome := .ok (browserReturn t benv),
             trace := (if sd then [] else [Tier.direct]) ++ [Tier.browser] },
           rest ++ [b]) := by
  simp only [download_pano_image, hd]
  cases hnp : benv.newPageOk with
  | false => simp [hnp]
  | true =>
    simp only [hnp, Bool.true_eq_false, if_neg (by simp : ¬ (True = False))]
    cases hpe : panoLookupExplicit t with
    | none => simp [browserReturn, hpe]
    | some p =>
      cases hnav : benv.navOk with
      | false => simp [browserReturn, hpe, hnav]
      | true =>
        cases hsel : benv.selectorOk with
        | false => simp [browserReturn, hpe, hnav, hsel]
        | true =>
          cases hcf : create_new_filename t with
          | none => simp [browserReturn, hpe, hnav, hsel, hcf]
          | some f =>
            cases hel : benv.panoElemFound <;> cases hsv : benv.saveOk <;>
              simp [browserReturn, hpe, hnav, hsel, hcf, hel, hsv]

theorem browserReturn_eq_none (t : Tile) (benv : BrowserEnv)
    (h : browserFails t benv = true) (hnp : benv.newPageOk = true) :
    browserReturn t benv = none := by
  cases hpe : panoLookupExplicit t <;>
    cases hcf : create_new_filename t <;>
    cases hnav : benv.navOk <;> cases hsel : benv.selectorOk <;>
    cases hel : benv.panoElemFound <;> cases hsv : benv.saveOk <;>
      simp_all [browserReturn, browserFails]

/-- C3: per tile the direct tier issues exactly one request, succeeds only on
HTTP 200 with an image content type, and the browser tier is attempted
exactly once — and only after direct failure; when both tiers fail no
filenames are returned; neither tier is ever retried. -/
theorem acquisition_two_tier :
    (∀ (fetch : String → FetchResult) (pano date h p z : String),
      (try_direct_download fetch pano date h p z).2 = 1)
    ∧ (∀ (fetch : String → FetchResult) (pano date h p z : String) (r : FetchResult),
      (try_direct_download fetch pano date h p z).1 = some r →
        r.status = 200 ∧ occursIn imageChars r.contentType.data = true)
    ∧ (∀ (t : Tile) (fetch : String → FetchResult) (dok : Bool) (benv : BrowserEnv)
        (b : ℕ) (rest : List ℕ),
      (download_pano_image_direct t fetch dok ≠ none
        ∧ (download_pano_image false t fetch dok benv (b :: rest)).1.trace
            = [Tier.direct])
      ∨ (download_pano_image_direct t fetch dok = none
        ∧ (download_pano_image false t fetch dok benv (b :: rest)).1.trace
            = [Tier.direct, Tier.browser]))
    ∧ (∀ (t : Tile) (fetch : String → FetchResult) (dok : Bool) (benv : BrowserEnv)
        (b : ℕ) (rest : List ℕ) (fns : List String),
      download_pano_image_direct t fetch dok = none →
      browserFails t benv = true →
      (download_pano_image false t fetch dok benv (b :: rest)).1.outcome
        ≠ .ok (some fns)) := by
  refine ⟨?_, ?_, ?_, ?_⟩
  · intro fetch pano date h p z
    simp only [try_direct_download, testUrls, tryDirectLoop]
    split_ifs <;> simp [tryDirectLoop]
  · intro fetch pano date h p z r hr
    simp only [try_direct_download, testUrls, tryDirectLoop] at hr
    by_cases h1 : (fetch (directUrl pano date h p z)).raises
    · simp [h1, tryDirectLoop] at hr
    · by_cases h2 : ((fetch (directUrl pano date h p z)).status = 200
          && occursIn imageChars (fetch (directUrl pano date h p z)).contentType.data) = true
      · simp [h1, h2] at hr
        rcases hr with rfl
        simpa using h2
      · simp [h1, h2, tryDirectLoop] at hr
  · intro t fetch dok benv b rest
    cases hd : download_pano_image_direct t fetch dok with
    | some fns =>
      left
      refine ⟨by simp [hd], ?_⟩
      rw [download_direct_eval t fetch dok benv (b :: rest) fns hd]
    | none =>
      right
      refine ⟨rfl, ?_⟩
      rw [download_browser_eval false t fetch dok benv b rest (by simpa using hd)]
      cases hnp : benv.newPageOk <;> simp [hnp]
  · intro t fetch dok benv b rest fns hd hbf
    rw [download_browser_eval false t fetch dok benv b rest (by simpa using hd)]
    cases hnp : benv.newPageOk with
    | false => simp [hnp]
    | true =>
      rw [if_neg (by simp [hnp])]
      simp [browserReturn_eq_none t benv hbf hnp]

/-- Witness for `acquisition_two_tier`: a failing direct fetch followed by a
failing navigation yields no filenames. -/
theorem acquisition_two_tier_witness :
    (download_pano_image false tileABC fetchFail true benvNavFail [0]).1.outcome
      ≠ .ok (some ["a"]) :=
  acquisition_two_tier.2.2.2 tileABC fetchFail true benvNavFail 0 [] ["a"]
    (by decide) (by decide)

/-- C8: per-tile failures (`none` outcomes) and per-file caught exceptions
never stop the loops — every tile and every remaining file is still
processed — and each of the modelled per-tile error kinds (missing
identifier, failed navigation, selector timeout, failed screenshot write)
makes `download_pano_image` return `None` rather than raise. -/
theorem per_tile_errors_contained :
    (∀ (f : Tile → Option (List String)) (tiles : List Tile),
      (runTiles f tiles).2 = tiles.length)
    ∧ (∀ (f : Tile → Option (List String)) (t : Tile) (rest : List Tile),
      f t = none → (runTiles f (t :: rest)).1 = (runTiles f rest).1)
    ∧ (∀ (e : String) (rest : List (Except String (List String))),
      runFiles (.error e :: rest) = runFiles rest)
    ∧ (∀ (fns : List String) (rest : List (Except String (List String))),
      runFiles (.ok fns :: rest) = fns ++ runFiles rest)
    ∧ (∀ (t : Tile) (fetch : String → FetchResult) (dok : Bool) (benv : BrowserEnv)
        (b : ℕ) (rest : List ℕ),
      benv.newPageOk = true →
      download_pano_image_direct t fetch dok = none →
      (panoLookupExplicit t = none ∨ benv.navOk = false ∨ benv.selectorOk = false
        ∨ benv.panoElemFound = false ∨ benv.saveOk = false) →
      (download_pano_image false t fetch dok benv (b :: rest)).1.outcome
        = .ok none) := by
  refine ⟨?_, ?_, fun _ _ => rfl, fun _ _ => rfl, ?_⟩
  · intro f tiles
    induction tiles with
    | nil => rfl
    | cons t rest ih =>
      simp only [runTiles]
      cases hf : f t <;> simp [hf, ih, List.length_cons]
  · intro f t rest hf
    simp [runTiles, hf]
  · intro t fetch dok benv b rest hnp hd hor
    have hbf : browserFails t benv = true := by
      rcases hor with h | h | h | h | h <;> simp [browserFails, h]
    rw [download_browser_eval false t fetch dok benv b rest (by simpa using hd)]
    rw [if_neg (by simp [hnp])]
    simp [browserReturn_eq_none t benv hbf hnp]

/-- Witness for `per_tile_errors_contained`: a selector timeout is caught and
yields `None`. -/
theorem per_tile_errors_contained_witness :
    (download_pano_image false tileABC fetchFail true benvSelFail [0]).1.outcome
      = .ok none :=
  per_tile_errors_contained.2.2.2.2 tileABC fetchFail true benvSelFail 0 []
    (by decide) (by decide) (Or.inr (Or.inr (Or.inl (by decide))))

/-- C10 counterexample: when `browser.new_page()` raises, the `finally`
block evaluates `page.close()` with `page` never bound, the resulting
exception skips `return_browser`, and the pool of one browser is left
empty — capacity is permanently lost. -/
theorem browser_lost_counterexample :
    (download_pano_image false tileABC fetchFail true benvNoPage [0]).2 = []
    ∧ ¬ ((download_pano_image false tileABC fetchFail true benvNoPage [0]).2).Perm [0] :=
  ⟨by decide, by decide⟩

/-- C10 (amended): provided `browser.new_page()` succeeds, the acquired
browser is returned to the pool by the time `download_pano_image` finishes,
on the success path and on every failure path; when page creation itself
raises, the cleanup raises and the browser is not returned (see the
counterexample). -/
theorem browser_returned_when_page_created :
    ∀ (sd : Bool) (t : Tile) (fetch : String → FetchResult) (dok : Bool)
      (benv : BrowserEnv) (avail : List ℕ),
      avail ≠ [] → benv.newPageOk = true →
      ((download_pano_image sd t fetch dok benv avail).2).Perm avail := by
  intro sd t fetch dok benv avail hne hnp
  rcases avail with _ | ⟨b, rest⟩
  · exact absurd rfl hne
  cases sd with
  | true =>
    rw [download_browser_eval true t fetch dok benv b rest (by simp)]
    rw [if_neg (by simp [hnp])]
    exact List.perm_append_singleton b rest
  | false =>
    cases hd : download_pano_image_direct t fetch dok with
    | some fns =>
      rw [download_direct_eval t fetch dok benv (b :: rest) fns hd]
    | none =>
      rw [download_browser_eval false t fetch dok benv b rest (by simpa using hd)]
      rw [if_neg (by simp [hnp])]
      exact List.perm_append_singleton b rest

/-- Witness for `browser_returned_when_page_created`: after a failed
navigation the pool still holds its browser. -/
theorem browser_returned_when_page_created_witness :
    ((download_pano_image false tileABC fetchFail true benvNavFail [0]).2).Perm [0] :=
  browser_returned_when_page_created false tileABC fetchFail true benvNavFail [0]
    (by decide) (by decide)

